import Mathlib

/-!
Verification of the RAG pipeline (rag_supabase.py / rag_pipeline.py /
backend.py) against its natural-language specification.

The Python code is shallowly embedded: external collaborators (the OpenAI
embedding client, the Supabase table and RPC, the streaming language model)
are passed in as explicit oracle functions whose outcomes are `Except`
values (a `.error` models the collaborator raising an exception).  A Python
function that may raise is embedded with result type `Except PyErr _`; a
raised exception is `.error`, a normal return is `.ok`.  The store is a
list of records threaded through explicitly.  JSON metadata dictionaries
are embedded as association lists of `JVal` (the json.dumps/json.loads
round trip between ingestion and query is modelled as the identity).
Similarity scores (Python floats) are modelled as rationals.
-/

namespace Rag

/-- An exception raised by the embedding/generation provider. -/
structure ProviderErr where
  msg : String
  deriving DecidableEq, Repr

/-- An exception raised by the Supabase store (insert / delete / rpc / select). -/
structure StorageErr where
  msg : String
  deriving DecidableEq, Repr

/-- A Python exception as seen by a caller of the embedded functions. -/
inductive PyErr where
  | provider (e : ProviderErr)
  | storage (e : StorageErr)
  | keyError (key : String)
  deriving DecidableEq, Repr

/-- A JSON scalar as stored in the `metadata` dictionaries of this code
(values are either strings, e.g. `source`, or integers, e.g. `chunk_index`
and `page`). -/
inductive JVal where
  | jstr (s : String)
  | jnum (n : Int)
  deriving DecidableEq, Repr

/-- Python `d.get(key)` on a metadata dictionary, embedded as first match in
an association list. -/
def jlookup (m : List (String × JVal)) (key : String) : Option JVal :=
  (m.find? (fun p => p.fst == key)).map Prod.snd

/-- How a `JVal` renders inside a Python f-string. -/
def jvalDisplay : JVal → String
  | .jstr s => s
  | .jnum n => toString n

/-- Python's `f"{x:.2f}"` on a (nonnegative) similarity score, with the
score modelled as a rational: round to the nearest hundredth and print two
digits after the decimal point. -/
def formatTwoDecimals (q : ℚ) : String :=
  let scaled : Int := ⌊q * 100 + 1 / 2⌋
  let sign := if scaled < 0 then "-" else ""
  let a := scaled.natAbs
  sign ++ toString (a / 100) ++ "." ++ (if a % 100 < 10 then "0" else "") ++ toString (a % 100)

/-- A row returned by the `match_documents` RPC: content, parsed metadata,
and the similarity field (`doc.get('similarity', 0)` defaults it to 0, so it
is optional here). -/
structure MatchRow where
  content : String
  metadata : List (String × JVal)
  similarity : Option ℚ
  deriving DecidableEq, Repr

/-- A langchain `Document` chunk as consumed by `_store_chunks`:
`page_content` plus loader metadata (carrying `page` for PDF pages). -/
structure Chunk where
  page_content : String
  metadata : List (String × JVal)
  deriving DecidableEq, Repr

/-- A row of the batch insert payload built by `_store_chunks`. -/
structure InsertRow where
  content : String
  metadata : List (String × JVal)
  embedding : List ℚ
  deriving DecidableEq, Repr

/-- A persisted row of the `documents` table. -/
structure StoredRecord where
  id : Nat
  content : String
  metadata : List (String × JVal)
  embedding : List ℚ
  deriving DecidableEq, Repr

/-- The external collaborators consulted by `retrieve_relevant_chunks`:
`embeddings.embed_query`, the `select('id', count='exact')` call, and the
`match_documents` RPC taking (query_embedding, match_threshold, match_count). -/
structure StoreOracle where
  embedQ : String → Except ProviderErr (List ℚ)
  countQ : Except StorageErr Nat
  rpcMatchDocuments : List ℚ → ℚ → Nat → Except StorageErr (List MatchRow)

/-- The tail of `retrieve_relevant_chunks` after the RPC call: an exception
is caught by the surrounding `try` and becomes `[]`; an empty `result.data`
also returns `[]`, otherwise the data is returned. -/
def rpcHandle : Except StorageErr (List MatchRow) → Except PyErr (List MatchRow)
  | .error _ => .ok []
  | .ok data => if data.isEmpty then .ok [] else .ok data

/-- `SupabaseRAG.retrieve_relevant_chunks(question, k=4)`: one `try` block
embeds the question, runs the diagnostic count query, and calls the
`match_documents` RPC with `match_threshold` 0.0 and `match_count` k; any
exception anywhere inside is caught and `[]` is returned.  The function
never raises, hence the result is always `.ok`. -/
def retrieve_relevant_chunks (o : StoreOracle) (question : String) (k : Nat := 4) :
    Except PyErr (List MatchRow) :=
  match o.embedQ question with
  | .error _ => .ok []
  | .ok query_embedding =>
    match o.countQ with
    | .error _ => .ok []
    | .ok _ => rpcHandle (o.rpcMatchDocuments query_embedding 0 k)

/-- The fixed fallback message `query_stream` yields when retrieval is empty. -/
def fallbackMessage : String :=
  "I don't have enough information to answer that question. Please make sure documents are uploaded and the database is set up correctly."

/-- The sources-section header yielded after the generation stream. -/
def sourcesHeader : String := "\n\n📚 **Sources:**\n"

/-- The prompt template of `query_stream` with `context` and `question`
substituted. -/
def promptTemplate (context question : String) : String :=
  "You are a helpful AI assistant. Use the following context to answer the question.\nIf you don't know the answer, say so. Be concise and accurate.\n\nContext:\n"
    ++ context ++ "\n\nQuestion: " ++ question ++ "\n\nAnswer:"

/-- `metadata['source']` as rendered in the sources f-string (only consulted
after the key lookup has succeeded; the empty string is dead-code filler for
the absent case, in which `attributionLines` raises instead). -/
def sourceDisplay (d : MatchRow) : String :=
  match jlookup d.metadata "source" with
  | some v => jvalDisplay v
  | none => ""

/-- `metadata.get('page', 'N/A')` as rendered in the sources f-string. -/
def pageDisplay (m : List (String × JVal)) : String :=
  match jlookup m "page" with
  | some v => jvalDisplay v
  | none => "N/A"

/-- One line of the sources section:
`f"\n{i}. {metadata['source']} (page {metadata.get('page', 'N/A')}, similarity: {similarity:.2f})"`. -/
def attributionLine (i : Nat) (d : MatchRow) : String :=
  "\n" ++ toString i ++ ". " ++ sourceDisplay d ++ " (page " ++ pageDisplay d.metadata
    ++ ", similarity: " ++ formatTwoDecimals (d.similarity.getD 0) ++ ")"

/-- The `for i, doc in enumerate(relevant_docs, 1)` loop over the sources:
yields one line per doc; `metadata['source']` raises `KeyError` when the key
is absent, which aborts the stream (earlier lines stay yielded). -/
def attributionLines : List MatchRow → Nat → List String × Option PyErr
  | [], _ => ([], none)
  | d :: rest, i =>
    match jlookup d.metadata "source" with
    | none => ([], some (.keyError "source"))
    | some _ =>
      let t := attributionLines rest (i + 1)
      (attributionLine i d :: t.1, t.2)

/-- The same enumerate loop on the happy path (every doc carries `source`),
as a pure list of lines. -/
def attributionLinesOk : List MatchRow → Nat → List String
  | [], _ => []
  | d :: rest, i => attributionLine i d :: attributionLinesOk rest (i + 1)

/-- `SupabaseRAG.query_stream(question)` as the finite sequence of yielded
fragments paired with the exception, if any, that aborts the generator.
The language model chain `prompt | llm | StrOutputParser` is the oracle
`llmStream`, applied to the substituted prompt; its fragments are forwarded
in order, then the sources header and lines are yielded. -/
def query_stream (o : StoreOracle) (llmStream : String → List String) (question : String) :
    List String × Option PyErr :=
  match retrieve_relevant_chunks o question 3 with
  | .error e => ([], some e)
  | .ok relevant_docs =>
    if relevant_docs.isEmpty then
      ([fallbackMessage], none)
    else
      let context := String.intercalate "\n\n" (relevant_docs.map MatchRow.content)
      let answer := llmStream (promptTemplate context question)
      let t := attributionLines relevant_docs 1
      (answer ++ sourcesHeader :: t.1, t.2)

/-- The metadata dictionary `_store_chunks` builds for chunk number `i`:
`{"source": source_file, "chunk_index": i, "page": chunk.metadata.get("page", 0)}`. -/
def chunkMetadata (source_file : String) (i : Nat) (c : Chunk) : List (String × JVal) :=
  [("source", .jstr source_file), ("chunk_index", .jnum (Int.ofNat i)),
   ("page", (jlookup c.metadata "page").getD (.jnum 0))]

/-- The `for i, chunk in enumerate(chunks)` loop of `_store_chunks`: embed
each chunk in order and build the insert payload; the first embedding
failure aborts the whole loop (it is outside any try). -/
def prepareRows (embed : String → Except ProviderErr (List ℚ)) (source_file : String) :
    List Chunk → Nat → Except ProviderErr (List InsertRow)
  | [], _ => .ok []
  | c :: rest, i =>
    match embed c.page_content with
    | .error e => .error e
    | .ok emb =>
      match prepareRows embed source_file rest (i + 1) with
      | .error e => .error e
      | .ok rows => .ok (⟨c.page_content, chunkMetadata source_file i c, emb⟩ :: rows)

/-- `SupabaseRAG._store_chunks(chunks, source_file)`.  `insertExec` is the
single `table('documents').insert(insert_data).execute()` call: it returns
its outcome and the store as the underlying database left it (no rollback
is modelled).  An embedding failure propagates before any insert; an insert
failure is caught, logged and re-raised. -/
def store_chunks (embed : String → Except ProviderErr (List ℚ))
    (insertExec : List InsertRow → List StoredRecord → Except StorageErr Unit × List StoredRecord)
    (chunks : List Chunk) (source_file : String) (db : List StoredRecord) :
    Except PyErr Unit × List StoredRecord :=
  match prepareRows embed source_file chunks 0 with
  | .error e => (.error (.provider e), db)
  | .ok rows =>
    let r := insertExec rows db
    match r.1 with
    | .error e => (.error (.storage e), r.2)
    | .ok _ => (.ok (), r.2)

/-- `SupabaseRAG.clear_database()`: runs
`table('documents').delete().neq('id', 0).execute()` inside a `try` that
catches every exception.  `deleteFailure` is the outcome of that remote
call.  On success every row matching the filter `id ≠ 0` is deleted and
`True` is returned; on failure the exception is caught and `False` is
returned.  The function never raises, hence the result is always `.ok`. -/
def clear_database (deleteFailure : Option StorageErr) (db : List StoredRecord) :
    Except PyErr Bool × List StoredRecord :=
  match deleteFailure with
  | some _ => (.ok false, db)
  | none => (.ok true, db.filter (fun r => r.id == 0))

/-- `count()` over the store, for the round-trip property. -/
def dbCount (db : List StoredRecord) : Nat := db.length

/-- Modelled from the spec: the repository calls langchain's
`RecursiveCharacterTextSplitter` (a third-party component whose code is not
under src/) with separators paragraph, line, word, character.  Per spec
section 4.2, a document whose length is at most `chunkSize` is returned as
exactly one chunk; a longer document is split greedily into chunks of at
most `chunkSize` characters, each overlapping the previous by
`chunkOverlap` characters (the boundary-preferring choice among separators
is abstracted; the spec's design invariant `chunkOverlap < chunkSize` makes
the recursion terminate, and its violation is treated as the base case). -/
def splitText (chunkSize chunkOverlap : Nat) (text : List Char) : List (List Char) :=
  if text.length ≤ chunkSize ∨ chunkSize ≤ chunkOverlap then [text]
  else
    text.take chunkSize :: splitText chunkSize chunkOverlap (text.drop (chunkSize - chunkOverlap))
  termination_by text.length
  decreasing_by
    simp only [List.length_drop]
    omega

/-- `RAGPipeline.split_documents(documents, chunk_size, chunk_overlap)`:
split each loaded document and concatenate the chunk lists in order. -/
def split_documents (chunk_size chunk_overlap : Nat) (documents : List (List Char)) :
    List (List Char) :=
  (documents.map (splitText chunk_size chunk_overlap)).flatten

/-! Concrete collaborators and data for witnesses and counterexamples. -/

/-- A sample storage-side exception. -/
def err0 : StorageErr := ⟨"connection refused"⟩

/-- A sample provider-side exception. -/
def perr0 : ProviderErr := ⟨"provider unavailable"⟩

/-- A sample retrieved row carrying full metadata. -/
def doc0 : MatchRow :=
  ⟨"RAG stands for Retrieval-Augmented Generation.",
   [("source", .jstr "uploads/test.txt"), ("chunk_index", .jnum 0), ("page", .jnum 0)],
   some (87 / 100)⟩

/-- A sample retrieved row whose metadata has no `page` key. -/
def docNoPage : MatchRow := ⟨"alpha", [("source", .jstr "a.txt")], some (9 / 10)⟩

/-- An oracle on which every external call succeeds and the RPC returns `ms`. -/
def oracleWith (ms : List MatchRow) : StoreOracle :=
  ⟨fun _ => .ok [1, 0], .ok ms.length, fun _ _ _ => .ok ms⟩

/-- An oracle whose embedding call raises. -/
def oracleEmbedFail : StoreOracle :=
  ⟨fun _ => .error perr0, .ok 1, fun _ _ _ => .ok [doc0]⟩

/-- An oracle whose `match_documents` RPC raises. -/
def oracleRpcFail : StoreOracle :=
  ⟨fun _ => .ok [1], .ok 1, fun _ _ _ => .error err0⟩

/-- An embedder that always succeeds. -/
def embedOk : String → Except ProviderErr (List ℚ) := fun _ => .ok [1]

/-- An embedder that raises exactly on the text "bad". -/
def embedPartial : String → Except ProviderErr (List ℚ) :=
  fun s => if s == "bad" then .error perr0 else .ok [1]

/-- A batch-insert call that raises without touching the store. -/
def insertFail : List InsertRow → List StoredRecord → Except StorageErr Unit × List StoredRecord :=
  fun _ db => (.error err0, db)

/-- A batch-insert call that appends the rows with fresh ids. -/
def insertAppend : List InsertRow → List StoredRecord → Except StorageErr Unit × List StoredRecord :=
  fun rows db =>
    (.ok (), db ++ rows.mapIdx (fun i r => ⟨db.length + i + 1, r.content, r.metadata, r.embedding⟩))

/-! ## C1 — clear_database and delete failures -/

/-- C1 (counterexample): when the delete call raises, `clear_database` does
NOT propagate a storage error: it returns the normal value `False` and
leaves the store as it was, contradicting the claim that the failure is
propagated to the caller. -/
theorem C1_counterexample :
    clear_database (some err0) [⟨1, "x", [], []⟩] = (.ok false, [⟨1, "x", [], []⟩]) := rfl

/-- C1 (amended): for every store state and every failing delete call,
`clear_database` catches the exception and returns `False` as a normal
value; no exception escapes and the store is left as it was. -/
theorem C1_theorem (e : StorageErr) (db : List StoredRecord) :
    clear_database (some e) db = (.ok false, db) := rfl

/-! ## C2 — embedding failure during retrieval -/

/-- C2 (counterexample): with an oracle whose embedding call raises,
`retrieve_relevant_chunks` returns the normal value `[]` instead of
propagating the failure, contradicting the claim that an embedding failure
is fatal for the retrieval operation. -/
theorem C2_counterexample :
    retrieve_relevant_chunks oracleEmbedFail "What is RAG?" 4 = .ok [] := rfl

/-- C2 (amended): whenever the embedding call on the question fails, the
exception is caught inside `retrieve_relevant_chunks` (its `try` block
spans the embedding call) and the operation silently returns the empty
result `[]` instead of propagating the error. -/
theorem C2_theorem (o : StoreOracle) (q : String) (k : Nat) (e : ProviderErr)
    (h : o.embedQ q = .error e) :
    retrieve_relevant_chunks o q k = .ok [] := by
  unfold retrieve_relevant_chunks
  rw [h]

/-- C2 witness: the amended theorem at a concrete failing oracle. -/
theorem C2_witness : retrieve_relevant_chunks oracleEmbedFail "q" 7 = .ok [] :=
  C2_theorem oracleEmbedFail "q" 7 perr0 rfl

/-! ## C7 — clear removes every record -/

/-- C7 (counterexample): a store holding one record with id 0; the clear
operation succeeds (returns `True`) yet the record survives the
`neq('id', 0)` filter, so `count()` is 1, not 0, contradicting the claim
that no record is exempted by any filter condition. -/
theorem C7_counterexample :
    clear_database none [⟨0, "ghost", [], []⟩] = (.ok true, [⟨0, "ghost", [], []⟩]) ∧
    dbCount (clear_database none [⟨0, "ghost", [], []⟩]).2 = 1 := ⟨rfl, rfl⟩

/-- C7 (amended): a successful `clear_database` removes exactly the records
matching the `neq('id', 0)` filter; whenever no stored record has id 0
(store-assigned ids are positive), the store is left empty, so
`count() == 0`. -/
theorem C7_theorem (db : List StoredRecord) (h : ∀ r ∈ db, r.id ≠ 0) :
    clear_database none db = (.ok true, []) ∧ dbCount (clear_database none db).2 = 0 := by
  have hf : db.filter (fun r => r.id == 0) = [] := by
    rw [List.filter_eq_nil_iff]
    intro r hr
    simpa using h r hr
  refine ⟨?_, ?_⟩ <;> simp [clear_database, dbCount, hf]

/-- C7 witness: the amended theorem on a concrete two-record store with
positive ids. -/
theorem C7_witness :
    clear_database none [⟨1, "a", [], []⟩, ⟨2, "b", [], []⟩] = (.ok true, []) ∧
    dbCount (clear_database none [⟨1, "a", [], []⟩, ⟨2, "b", [], []⟩]).2 = 0 :=
  C7_theorem [⟨1, "a", [], []⟩, ⟨2, "b", [], []⟩] (by decide)

/-! ## C8 — short documents split into one chunk -/

/-- C8: for every document whose length is at most `chunkSize`, the splitter
(modelled from the spec, see `splitText`) yields exactly the one chunk equal
to the document, whatever the overlap. -/
theorem C8_theorem (chunkSize chunkOverlap : Nat) (d : List Char)
    (h : d.length ≤ chunkSize) :
    splitText chunkSize chunkOverlap d = [d] := by
  unfold splitText
  simp [h]

/-- C8 witness: a 46-character document with chunk size 500 and overlap 50
is one chunk. -/
theorem C8_witness :
    splitText 500 50 "RAG stands for Retrieval-Augmented Generation.".toList
      = ["RAG stands for Retrieval-Augmented Generation.".toList] :=
  C8_theorem 500 50 "RAG stands for Retrieval-Augmented Generation.".toList (by decide)

/-! ## C3 — read path fails soft, write path fails hard -/

/-- C3: (read path) when the embedding and count calls succeed and the
`match_documents` RPC raises, `retrieve_relevant_chunks` catches the
exception and returns the normal empty result `[]`; (write path) when the
batch insert raises, `store_chunks` re-raises the storage error to its
caller. -/
theorem C3_theorem (o : StoreOracle) (q : String) (k : Nat) (v : List ℚ) (n : Nat)
    (e : StorageErr)
    (embed : String → Except ProviderErr (List ℚ))
    (insertExec : List InsertRow → List StoredRecord → Except StorageErr Unit × List StoredRecord)
    (chunks : List Chunk) (source_file : String) (db : List StoredRecord)
    (rows : List InsertRow) (e' : StorageErr)
    (h1 : o.embedQ q = .ok v) (h2 : o.countQ = .ok n)
    (h3 : o.rpcMatchDocuments v 0 k = .error e)
    (h4 : prepareRows embed source_file chunks 0 = .ok rows)
    (h5 : (insertExec rows db).1 = .error e') :
    retrieve_relevant_chunks o q k = .ok [] ∧
    (store_chunks embed insertExec chunks source_file db).1 = .error (.storage e') := by
  constructor
  · simp only [retrieve_relevant_chunks, h1, h2, h3, rpcHandle]
  · simp only [store_chunks, h4, h5]

/-- C3 witness: a concrete RPC failure yields `[]`, and a concrete insert
failure propagates as a storage error. -/
theorem C3_witness :
    retrieve_relevant_chunks oracleRpcFail "q" 3 = .ok [] ∧
    (store_chunks embedOk insertFail [⟨"hello", []⟩] "f.txt" []).1 = .error (.storage err0) :=
  C3_theorem oracleRpcFail "q" 3 [1] 1 err0 embedOk insertFail [⟨"hello", []⟩] "f.txt" []
    [⟨"hello", chunkMetadata "f.txt" 0 ⟨"hello", []⟩, [1]⟩] err0 rfl rfl rfl rfl rfl

/-! ## C4 — empty retrieval: fallback message only -/

/-- C4: whenever the streaming path's retrieval returns the empty list,
`query_stream` yields exactly the one fixed fallback message and stops with
no error: whatever the language model oracle is, it is never consulted, and
no sources section is emitted. -/
theorem C4_theorem (o : StoreOracle) (q : String)
    (h : retrieve_relevant_chunks o q 3 = .ok []) :
    ∀ llmStream, query_stream o llmStream q = ([fallbackMessage], none) := by
  intro llmStream
  unfold query_stream
  rw [h]
  rfl

/-- C4 witness: against an empty store the stream is the fallback message
alone. -/
theorem C4_witness :
    query_stream (oracleWith []) (fun _ => ["generated answer"]) "What is RAG?"
      = ([fallbackMessage], none) :=
  C4_theorem (oracleWith []) "What is RAG?" rfl (fun _ => ["generated answer"])

/-! ## C5 — retrieval parameters: threshold 0.0, count k, defaults 4 and 3 -/

/-- C5: when the embedding of the question succeeds (and the diagnostic
count call does too), `retrieve_relevant_chunks` passes that embedding to
the `match_documents` RPC with `match_threshold` 0 and `match_count` k and
returns its handled result; the standalone operation defaults k to 4; and
`query_stream` consults its oracle only through this retrieval at k = 3. -/
theorem C5_theorem (o : StoreOracle) (q : String) (k : Nat) (v : List ℚ) (n : Nat)
    (h1 : o.embedQ q = .ok v) (h2 : o.countQ = .ok n) :
    retrieve_relevant_chunks o q k = rpcHandle (o.rpcMatchDocuments v 0 k) ∧
    retrieve_relevant_chunks o q = retrieve_relevant_chunks o q 4 ∧
    ∀ (o' : StoreOracle) llmStream,
      retrieve_relevant_chunks o' q 3 = retrieve_relevant_chunks o q 3 →
      query_stream o' llmStream q = query_stream o llmStream q := by
  refine ⟨?_, rfl, ?_⟩
  · simp only [retrieve_relevant_chunks, h1, h2]
  · intro o' llmStream h
    unfold query_stream
    rw [h]

/-- C5 witness: the conjunction at a concrete oracle, question and k. -/
theorem C5_witness :
    retrieve_relevant_chunks (oracleWith [doc0]) "q" 2
        = rpcHandle ((oracleWith [doc0]).rpcMatchDocuments [1, 0] 0 2) ∧
    retrieve_relevant_chunks (oracleWith [doc0]) "q"
        = retrieve_relevant_chunks (oracleWith [doc0]) "q" 4 ∧
    ∀ (o' : StoreOracle) llmStream,
      retrieve_relevant_chunks o' "q" 3 = retrieve_relevant_chunks (oracleWith [doc0]) "q" 3 →
      query_stream o' llmStream "q" = query_stream (oracleWith [doc0]) llmStream "q" :=
  C5_theorem (oracleWith [doc0]) "q" 2 [1, 0] 1 rfl rfl

/-! ## C6 — attribution after the generation stream -/

/-- The default row used by `List.getD` in the statements below. -/
def emptyMatchRow : MatchRow := ⟨"", [], none⟩

/-- On the happy path (every doc carries a `source` key) the enumerate loop
raises nothing and yields exactly its pure list of lines. -/
theorem attributionLines_eq_ok (docs : List MatchRow) :
    ∀ i, (∀ d ∈ docs, (jlookup d.metadata "source").isSome) →
      attributionLines docs i = (attributionLinesOk docs i, none) := by
  induction docs with
  | nil => intro i _; rfl
  | cons d rest ih =>
    intro i h
    have hd := h d (List.mem_cons_self d rest)
    obtain ⟨v, hv⟩ := Option.isSome_iff_exists.mp hd
    have ht := ih (i + 1) (fun d' hd' => h d' (List.mem_cons_of_mem d hd'))
    simp [attributionLines, attributionLinesOk, hv, ht]

/-- The loop yields one line per retrieved doc. -/
theorem attributionLinesOk_length (docs : List MatchRow) :
    ∀ i, (attributionLinesOk docs i).length = docs.length := by
  induction docs with
  | nil => intro i; rfl
  | cons d rest ih => intro i; simp [attributionLinesOk, ih (i + 1)]

/-- Line `j` of the loop started at `i` is the formatted line for doc `j`
numbered `i + j`. -/
theorem attributionLinesOk_getD (docs : List MatchRow) :
    ∀ i j, j < docs.length →
      (attributionLinesOk docs i).getD j "" = attributionLine (i + j) (docs.getD j emptyMatchRow) := by
  induction docs with
  | nil => intro i j hj; simp at hj
  | cons d rest ih =>
    intro i j hj
    cases j with
    | zero => simp [attributionLinesOk]
    | succ j' =>
      have h' : j' < rest.length := by simpa using hj
      have := ih (i + 1) j' h'
      have harith : i + 1 + j' = i + (j' + 1) := by omega
      simpa [attributionLinesOk, harith] using this

/-- C6: with a non-empty retrieval result whose rows all carry a `source`
key, `query_stream` yields the generation stream applied to the prompt
built from the retrieved contents joined by a blank line in retrieval
order, then (never interleaved) the sources header, then one attribution
line per retrieved row in order: line `j` shows row `j` numbered `j + 1`
with its source path, its page (`"N/A"` inside `attributionLine` when the
page key is absent) and its similarity formatted to two decimals. -/
theorem C6_theorem (o : StoreOracle) (llmStream : String → List String) (q : String)
    (docs : List MatchRow)
    (h1 : retrieve_relevant_chunks o q 3 = .ok docs) (h2 : docs ≠ [])
    (h3 : ∀ d ∈ docs, (jlookup d.metadata "source").isSome) :
    query_stream o llmStream q =
      (llmStream (promptTemplate (String.intercalate "\n\n" (docs.map MatchRow.content)) q)
        ++ sourcesHeader :: attributionLinesOk docs 1, none) ∧
    (attributionLinesOk docs 1).length = docs.length ∧
    ∀ j, j < docs.length →
      (attributionLinesOk docs 1).getD j ""
        = attributionLine (1 + j) (docs.getD j emptyMatchRow) := by
  refine ⟨?_, attributionLinesOk_length docs 1, fun j hj => attributionLinesOk_getD docs 1 j hj⟩
  simp [query_stream, h1, h2, attributionLines_eq_ok docs 1 h3]

/-- C6 witness: one retrieved row without a page key; the stream is the
generated answer, the header, then the one line showing page N/A and the
similarity 0.90. -/
theorem C6_witness :
    query_stream (oracleWith [docNoPage]) (fun _ => ["generated answer"]) "q" =
      ((fun _ => ["generated answer"])
          (promptTemplate (String.intercalate "\n\n" ([docNoPage].map MatchRow.content)) "q")
        ++ sourcesHeader :: attributionLinesOk [docNoPage] 1, none) ∧
    (attributionLinesOk [docNoPage] 1).length = [docNoPage].length ∧
    ∀ j, j < [docNoPage].length →
      (attributionLinesOk [docNoPage] 1).getD j ""
        = attributionLine (1 + j) ([docNoPage].getD j emptyMatchRow) :=
  C6_theorem (oracleWith [docNoPage]) (fun _ => ["generated answer"]) "q" [docNoPage]
    rfl (by decide) (by decide)

/-! ## C9 — all embeddings precede the single insert -/

/-- If the embedder fails on some chunk of the list, the preparing loop
aborts with an error (every chunk is embedded before anything else happens,
so a failure anywhere is hit before any insert). -/
theorem prepareRows_error_of_mem (embed : String → Except ProviderErr (List ℚ))
    (source_file : String) :
    ∀ (chunks : List Chunk) (i : Nat) (c : Chunk) (e : ProviderErr),
      c ∈ chunks → embed c.page_content = .error e →
      ∃ e', prepareRows embed source_file chunks i = .error e' := by
  intro chunks
  induction chunks with
  | nil => intro i c e hc; simp at hc
  | cons a rest ih =>
    intro i c e hc he
    cases hema : embed a.page_content with
    | error e0 => exact ⟨e0, by simp [prepareRows, hema]⟩
    | ok emb =>
      rcases List.mem_cons.mp hc with rfl | htail
      · rw [hema] at he; cases he
      · obtain ⟨e', h'⟩ := ih (i + 1) c e htail he
        exact ⟨e', by simp [prepareRows, hema, h']⟩

/-- C9: when the embedding provider fails on any chunk of the document,
`store_chunks` raises a provider error and the store is left exactly as it
was; moreover the outcome does not depend on the insert call at all, since
the single batch insert is only issued after every embedding has been
computed. -/
theorem C9_theorem (embed : String → Except ProviderErr (List ℚ))
    (insertExec : List InsertRow → List StoredRecord → Except StorageErr Unit × List StoredRecord)
    (chunks : List Chunk) (source_file : String) (db : List StoredRecord)
    (c : Chunk) (e : ProviderErr)
    (hc : c ∈ chunks) (he : embed c.page_content = .error e) :
    (∃ e', store_chunks embed insertExec chunks source_file db = (.error (.provider e'), db)) ∧
    ∀ insertExec',
      store_chunks embed insertExec' chunks source_file db
        = store_chunks embed insertExec chunks source_file db := by
  obtain ⟨e', hp⟩ := prepareRows_error_of_mem embed source_file chunks 0 c e hc he
  exact ⟨⟨e', by simp [store_chunks, hp]⟩, fun ie' => by simp [store_chunks, hp]⟩

/-- C9 witness: a two-chunk document whose second chunk's embedding fails:
ingestion into an empty store raises and leaves the store empty, whatever
the insert call would have done. -/
theorem C9_witness :
    (∃ e', store_chunks embedPartial insertAppend [⟨"good", []⟩, ⟨"bad", []⟩] "f.txt" []
        = (.error (.provider e'), [])) ∧
    ∀ insertExec',
      store_chunks embedPartial insertExec' [⟨"good", []⟩, ⟨"bad", []⟩] "f.txt" []
        = store_chunks embedPartial insertAppend [⟨"good", []⟩, ⟨"bad", []⟩] "f.txt" [] :=
  C9_theorem embedPartial insertAppend [⟨"good", []⟩, ⟨"bad", []⟩] "f.txt" []
    ⟨"bad", []⟩ perr0 (by decide) rfl

/-! ## C10 — the metadata invariant of inserted records -/

/-- Default elements for `List.getD` in the statements below. -/
def emptyChunk : Chunk := ⟨"", []⟩

/-- Default insert row for `List.getD`. -/
def emptyInsertRow : InsertRow := ⟨"", [], []⟩

/-- On a successful preparing loop started at `i`, row `j` carries exactly
the metadata dictionary built for chunk `j` with index `i + j`. -/
theorem prepareRows_ok_spec (embed : String → Except ProviderErr (List ℚ))
    (source_file : String) :
    ∀ (chunks : List Chunk) (i : Nat) (rows : List InsertRow),
      prepareRows embed source_file chunks i = .ok rows →
      rows.length = chunks.length ∧
      ∀ j, j < rows.length →
        (rows.getD j emptyInsertRow).metadata
          = chunkMetadata source_file (i + j) (chunks.getD j emptyChunk) := by
  intro chunks
  induction chunks with
  | nil =>
    intro i rows h
    simp only [prepareRows] at h
    cases h
    exact ⟨rfl, fun j hj => by simp at hj⟩
  | cons a rest ih =>
    intro i rows h
    simp only [prepareRows] at h
    cases hema : embed a.page_content with
    | error e0 => rw [hema] at h; cases h
    | ok emb =>
      rw [hema] at h
      cases hrest : prepareRows embed source_file rest (i + 1) with
      | error e0 => rw [hrest] at h; cases h
      | ok rows' =>
        rw [hrest] at h
        cases h
        obtain ⟨hlen, hmeta⟩ := ih (i + 1) rows' hrest
        refine ⟨by simp [hlen], fun j hj => ?_⟩
        cases j with
        | zero => simp
        | succ j' =>
          have h' : j' < rows'.length := by simpa using hj
          have harith : i + (j' + 1) = i + 1 + j' := by omega
          simpa [harith] using hmeta j' h'

/-- Looking up `source` in a built metadata dictionary. -/
theorem jlookup_meta_source (source_file : String) (i : Nat) (c : Chunk) :
    jlookup (chunkMetadata source_file i c) "source" = some (.jstr source_file) := by
  simp [chunkMetadata, jlookup]

/-- Looking up `chunk_index` in a built metadata dictionary. -/
theorem jlookup_meta_chunk_index (source_file : String) (i : Nat) (c : Chunk) :
    jlookup (chunkMetadata source_file i c) "chunk_index" = some (.jnum (Int.ofNat i)) := by
  simp [chunkMetadata, jlookup]

/-- Looking up `page` in a built metadata dictionary: the chunk's page when
present, else 0. -/
theorem jlookup_meta_page (source_file : String) (i : Nat) (c : Chunk) :
    jlookup (chunkMetadata source_file i c) "page"
      = some ((jlookup c.metadata "page").getD (.jnum 0)) := by
  simp [chunkMetadata, jlookup]

/-- C10: every row of a successful batch-insert payload carries a metadata
dictionary whose keys are exactly `source`, `chunk_index` and `page`, in
which `source` is the ingested file's path, `chunk_index` is the row's
0-based position in the split sequence, and `page` is the loaded unit's
page when present and 0 otherwise — so the `page` key is never absent. -/
theorem C10_theorem (embed : String → Except ProviderErr (List ℚ))
    (source_file : String) (chunks : List Chunk) (rows : List InsertRow)
    (h : prepareRows embed source_file chunks 0 = .ok rows) :
    rows.length = chunks.length ∧
    ∀ j, j < rows.length →
      (rows.getD j emptyInsertRow).metadata.map Prod.fst
          = ["source", "chunk_index", "page"] ∧
      jlookup (rows.getD j emptyInsertRow).metadata "source"
          = some (.jstr source_file) ∧
      jlookup (rows.getD j emptyInsertRow).metadata "chunk_index"
          = some (.jnum (Int.ofNat j)) ∧
      (jlookup (rows.getD j emptyInsertRow).metadata "page").isSome = true ∧
      (jlookup (chunks.getD j emptyChunk).metadata "page" = none →
        jlookup (rows.getD j emptyInsertRow).metadata "page" = some (.jnum 0)) ∧
      ∀ v, jlookup (chunks.getD j emptyChunk).metadata "page" = some v →
        jlookup (rows.getD j emptyInsertRow).metadata "page" = some v := by
  obtain ⟨hlen, hmeta⟩ := prepareRows_ok_spec embed source_file chunks 0 rows h
  refine ⟨hlen, fun j hj => ?_⟩
  rw [hmeta j hj]
  refine ⟨by simp [chunkMetadata], by rw [jlookup_meta_source],
    by rw [jlookup_meta_chunk_index]; simp, ?_, ?_, ?_⟩
  · rw [jlookup_meta_page]; rfl
  · intro hp; rw [jlookup_meta_page, hp]; rfl
  · intro v hp; rw [jlookup_meta_page, hp]; rfl

/-- The concrete two-chunk document of the C10 witness: the first chunk has
no page metadata, the second is page 2. -/
def chunksC10 : List Chunk := [⟨"a", []⟩, ⟨"b", [("page", .jnum 2)]⟩]

/-- The insert payload `prepareRows` builds for `chunksC10`. -/
def rowsC10 : List InsertRow :=
  [⟨"a", chunkMetadata "f.txt" 0 ⟨"a", []⟩, [1]⟩,
   ⟨"b", chunkMetadata "f.txt" 1 ⟨"b", [("page", .jnum 2)]⟩, [1]⟩]

/-- C10 witness: the metadata invariant at the concrete two-chunk document. -/
theorem C10_witness :
    rowsC10.length = chunksC10.length ∧
    ∀ j, j < rowsC10.length →
      (rowsC10.getD j emptyInsertRow).metadata.map Prod.fst
          = ["source", "chunk_index", "page"] ∧
      jlookup (rowsC10.getD j emptyInsertRow).metadata "source"
          = some (.jstr "f.txt") ∧
      jlookup (rowsC10.getD j emptyInsertRow).metadata "chunk_index"
          = some (.jnum (Int.ofNat j)) ∧
      (jlookup (rowsC10.getD j emptyInsertRow).metadata "page").isSome = true ∧
      (jlookup (chunksC10.getD j emptyChunk).metadata "page" = none →
        jlookup (rowsC10.getD j emptyInsertRow).metadata "page" = some (.jnum 0)) ∧
      ∀ v, jlookup (chunksC10.getD j emptyChunk).metadata "page" = some v →
        jlookup (rowsC10.getD j emptyInsertRow).metadata "page" = some v :=
  C10_theorem embedOk "f.txt" chunksC10 rowsC10 rfl

end Rag
